import Mathlib

/-!
Shallow embedding of the pricing engine in src/services/price-engine/main.cpp.

Modelling conventions:
* C++ doubles are modelled as exact rationals.
* The C library function log10 is passed as an abstract function parameter;
  only pointwise facts about it (such as log10 1 = 0) are ever assumed.
* Every random draw the engine consumes is injected explicitly (one record per
  call site), so each operation is a pure function of state and draws.
* The two periodic threads (price tick and story progression), the detached
  deactivation timers spawned by triggerMajorEvent, and shutdown are modelled
  as explicit operations on an engine state; the state tracks the outstanding
  timed deactivation tasks as a list of their remaining delays, so that the
  detached fire-and-forget timers in the source are visible in the model.
-/

/-- The Character struct of the source: one priced entity. -/
structure Character where
  id : ℕ
  name : String
  crew : String
  bounty : ℤ
  current_price : ℚ
  base_growth_rate : ℚ
  volatility : ℚ
  story_multiplier : ℚ
  sentiment_score : ℚ
  weekly_change : ℚ
  story_phase : ℕ
  is_trending : Bool
  last_update : ℕ
deriving DecidableEq

/-- The Character constructor: every character starts at price exactly 0,
with volatility 0.3, story multiplier 1, sentiment 0.5, no change recorded,
story phase 1 and not trending. -/
def Character.init (id : ℕ) (name crew : String) (bounty : ℤ)
    (growth_rate : ℚ) : Character :=
  { id := id
    name := name
    crew := crew
    bounty := bounty
    current_price := 0
    base_growth_rate := growth_rate
    volatility := 0.3
    story_multiplier := 1
    sentiment_score := 0.5
    weekly_change := 0
    story_phase := 1
    is_trending := false
    last_update := 0 }

/-- The MarketData struct: the shared market context. -/
structure MarketData where
  total_volume : ℚ
  market_cap : ℚ
  active_traders : ℕ
  volatility_index : ℚ
  current_year : ℕ
  days_elapsed : ℕ
  market_sentiment : ℚ
  major_event_active : Bool
  current_arc : String
  last_update : ℕ
deriving DecidableEq

/-- The MarketData constructor. -/
def MarketData.init : MarketData :=
  { total_volume := 0
    market_cap := 0
    active_traders := 1000
    volatility_index := 0.5
    current_year := 1
    days_elapsed := 0
    market_sentiment := 0.5
    major_event_active := false
    current_arc := "East Blue Saga"
    last_update := 0 }

/-- The ordered arc table story_arcs, fixed in the PriceEngine constructor. -/
def story_arcs : List String :=
  ["East Blue Saga", "Alabasta Saga", "Sky Island Saga",
   "Water 7 Saga", "Thriller Bark Saga", "Summit War Saga",
   "Fish-Man Island Saga", "Dressrosa Saga", "Zou Saga",
   "Whole Cake Island Saga", "Wano Country Saga", "Final Saga"]

/-- The story_arc_multipliers map, fixed in the PriceEngine constructor.
A lookup of an unknown key yields 0, matching std::map subscript access
default-inserting 0.0. -/
def story_arc_multipliers (arc : String) : ℚ :=
  if arc = "East Blue Saga" then 1.0
  else if arc = "Alabasta Saga" then 1.5
  else if arc = "Sky Island Saga" then 1.3
  else if arc = "Water 7 Saga" then 2.0
  else if arc = "Thriller Bark Saga" then 1.4
  else if arc = "Summit War Saga" then 3.0
  else if arc = "Fish-Man Island Saga" then 1.6
  else if arc = "Dressrosa Saga" then 2.2
  else if arc = "Zou Saga" then 1.8
  else if arc = "Whole Cake Island Saga" then 2.5
  else if arc = "Wano Country Saga" then 4.0
  else if arc = "Final Saga" then 5.0
  else 0

/-- PriceEngine::getStoryMultiplier: base table value for the current arc,
with three hardcoded per-character overrides on top of the base. -/
def getStoryMultiplier (c : Character) (current_arc : String) : ℚ :=
  let base_multiplier := story_arc_multipliers current_arc
  if current_arc = "Summit War Saga" ∧ c.name = "Monkey D. Luffy" then
    base_multiplier * 2
  else if current_arc = "Wano Country Saga" ∧ c.name = "Monkey D. Luffy" then
    base_multiplier * 3
  else if current_arc = "Wano Country Saga" ∧ c.name = "Kaido" then
    base_multiplier * 2.5
  else base_multiplier

/-- The random draws one call of calculateNewPrice may consume:
vol is the normal draw price_volatility(gen); growth is the uniform draw
growth_factor(gen) over [0.8, 1.5), consumed only on the zero-price branch. -/
structure Draws where
  vol : ℚ
  growth : ℚ
deriving DecidableEq

/-- PriceEngine::calculateNewPrice, with the double arithmetic over ℚ and the
library log10 abstract.  Mirrors the source line by line: doubled base growth
below price 10, story multiplier, time factor, volatility factor, bounty
factor (1 unless bounty > 0), crew factor, event factor; zero price is seeded
from the growth draw scaled by 0.5; the result is clamped by max with 0.01
then min with 10000. -/
def calculateNewPrice (log10 : ℚ → ℚ) (d : Draws) (m : MarketData)
    (c : Character) : ℚ :=
  let current_price := c.current_price
  let base_growth := if current_price < 10 then c.base_growth_rate * 2
                     else c.base_growth_rate
  let story_mult := getStoryMultiplier c m.current_arc
  let time_factor := 1 + base_growth * story_mult
  let volatility_swing := d.vol * c.volatility
  let volatility_factor := 1 + volatility_swing
  let bounty_factor := if 0 < c.bounty
                       then 1 + log10 ((c.bounty : ℚ) + 1) * 0.02 else 1
  let crew_factor := if c.crew = "Straw Hat Pirates" then 1.2
                     else if c.crew = "Beast Pirates" ∨ c.crew = "Big Mom Pirates"
                     then 1.15 else 1
  let event_factor := if m.major_event_active then 1.5 else 1
  let new_price := if current_price = 0 then d.growth * 0.5
                   else current_price * time_factor * volatility_factor *
                        bounty_factor * crew_factor * event_factor
  min (max new_price 0.01) 10000

/-- The per-character body of the update loop in PriceEngine::calculatePrices:
store the new price, record the percentage change against the old price, and
stamp the update time (wall-clock now() is abstracted to the tick count). -/
def tickCharacter (log10 : ℚ → ℚ) (d : Draws) (m : MarketData) (now : ℕ)
    (c : Character) : Character :=
  let old_price := c.current_price
  let new_price := calculateNewPrice log10 d m c
  { c with
    current_price := new_price
    weekly_change := if 0 < old_price
                     then (new_price - old_price) / old_price * 100
                     else if 0 < new_price then 100 else 0
    last_update := now }

/-- The for-loop of PriceEngine::calculatePrices over the character vector:
updates the characters in order, feeding each the draws for its position. -/
def updateChars (log10 : ℚ → ℚ) (perChar : ℕ → Draws) (m : MarketData)
    (now : ℕ) : ℕ → List Character → List Character
  | _, [] => []
  | i, c :: rest =>
      tickCharacter log10 (perChar i) m now c ::
        updateChars log10 perChar m now (i + 1) rest

/-- The full engine state: the character vector, the market data, the arc
index of the story progression thread, the remaining delays of the
outstanding detached deactivation timers spawned by triggerMajorEvent, and
the running flag. -/
structure EngineState where
  characters : List Character
  market : MarketData
  current_arc_index : ℕ
  pending_deactivations : List ℕ
  running : Bool
deriving DecidableEq

/-- The draws one tick of calculatePrices may consume: one Draws record per
character position, and the uniform draw event_chance(gen) deciding whether
triggerMajorEvent fires.  (The draw selecting the event message text affects
only console output and has no state effect.) -/
structure TickDraws where
  perChar : ℕ → Draws
  eventChance : ℚ

/-- PriceEngine::triggerMajorEvent: sets the major-event flag and spawns a
detached timer that clears it after 10 seconds; the model records the timer
in the pending list instead of detaching it invisibly. -/
def triggerMajorEvent (s : EngineState) : EngineState :=
  { s with
    market := { s.market with major_event_active := true }
    pending_deactivations := s.pending_deactivations ++ [10] }

/-- One iteration of the while-loop body of PriceEngine::calculatePrices:
increment elapsed days (rolling the year every 365), update every character
in order against the incremented market context, possibly fire
triggerMajorEvent when the event draw is below 0.1, and stamp the market
update time. -/
def calculatePricesTick (log10 : ℚ → ℚ) (td : TickDraws) (s : EngineState) :
    EngineState :=
  let days := s.market.days_elapsed + 1
  let year := if days % 365 = 0 then s.market.current_year + 1
              else s.market.current_year
  let m1 := { s.market with days_elapsed := days, current_year := year }
  let chars := updateChars log10 td.perChar m1 days 0 s.characters
  let s1 := { s with characters := chars, market := m1 }
  let s2 := if td.eventChance < 0.1 then triggerMajorEvent s1 else s1
  { s2 with market := { s2.market with last_update := days } }

/-- One iteration of the loop body of PriceEngine::progressStory: when the
elapsed days are positive and divisible by 100 and the arc index is not at
the last position, advance the index, install the new arc name, and set the
major-event flag.  No deactivation is scheduled here: the pending list is
untouched. -/
def progressStoryStep (s : EngineState) : EngineState :=
  if 0 < s.market.days_elapsed ∧ s.market.days_elapsed % 100 = 0 then
    if s.current_arc_index < story_arcs.length - 1 then
      { s with
        current_arc_index := s.current_arc_index + 1
        market := { s.market with
          current_arc := story_arcs.getD (s.current_arc_index + 1) ""
          major_event_active := true } }
    else s
  else s

/-- One detached deactivation timer expiring: the lambda body inside
triggerMajorEvent clears the major-event flag.  The model removes the timer
from the pending list; with no timer outstanding nothing happens. -/
def deactivationTimerFire (s : EngineState) : EngineState :=
  match s.pending_deactivations with
  | [] => s
  | _ :: rest =>
      { s with
        market := { s.market with major_event_active := false }
        pending_deactivations := rest }

/-- PriceEngine::stopPriceCalculation: clears the running flag and joins the
calculation thread and the story progression thread.  The detached
deactivation timers are neither tracked nor joined by the source, so the
pending list is left untouched. -/
def stopPriceCalculation (s : EngineState) : EngineState :=
  { s with running := false }

/-- The operations that can touch the shared state. -/
inductive EngineOp where
  | tick (log10 : ℚ → ℚ) (td : TickDraws)
  | story
  | deactivate
  | stop

/-- Apply one operation to the engine state. -/
def applyOp : EngineOp → EngineState → EngineState
  | EngineOp.tick log10 td, s => calculatePricesTick log10 td s
  | EngineOp.story, s => progressStoryStep s
  | EngineOp.deactivate, s => deactivationTimerFire s
  | EngineOp.stop, s => stopPriceCalculation s

/-- PriceEngine::loadCharacters: the fixed roster of 17 characters, every one
starting at price 0. -/
def loadCharacters : List Character :=
  [Character.init 1 "Monkey D. Luffy" "Straw Hat Pirates" 3000000000 0.15,
   Character.init 2 "Roronoa Zoro" "Straw Hat Pirates" 1111000000 0.12,
   Character.init 3 "Nami" "Straw Hat Pirates" 366000000 0.08,
   Character.init 4 "Usopp" "Straw Hat Pirates" 500000000 0.07,
   Character.init 5 "Sanji" "Straw Hat Pirates" 1032000000 0.11,
   Character.init 6 "Tony Tony Chopper" "Straw Hat Pirates" 1000 0.06,
   Character.init 7 "Nico Robin" "Straw Hat Pirates" 930000000 0.10,
   Character.init 8 "Franky" "Straw Hat Pirates" 394000000 0.09,
   Character.init 9 "Brook" "Straw Hat Pirates" 383000000 0.08,
   Character.init 10 "Jinbe" "Straw Hat Pirates" 1100000000 0.13,
   Character.init 11 "Kaido" "Beast Pirates" 4611100000 0.20,
   Character.init 12 "Big Mom" "Big Mom Pirates" 4388000000 0.18,
   Character.init 13 "Blackbeard" "Blackbeard Pirates" 3996000000 0.25,
   Character.init 14 "Doflamingo" "Donquixote Pirates" 340000000 0.14,
   Character.init 15 "Akainu" "Marines" 0 0.16,
   Character.init 16 "Kizaru" "Marines" 0 0.15,
   Character.init 17 "Aokiji" "Marines" 0 0.14]

/-- The engine state right after loadCharacters and startPriceCalculation:
the hardcoded roster, a fresh MarketData, arc index 0, no outstanding timer,
running. -/
def initialState : EngineState :=
  { characters := loadCharacters
    market := MarketData.init
    current_arc_index := 0
    pending_deactivations := []
    running := true }

/-- The states reachable from the freshly started engine under any
interleaving of the modelled operations. -/
inductive Reachable : EngineState → Prop where
  | init : Reachable initialState
  | step (op : EngineOp) {s : EngineState} :
      Reachable s → Reachable (applyOp op s)

/-- The per-tick price sequence one run emits: the list of current prices in
registry order. -/
def priceList (s : EngineState) : List ℚ :=
  s.characters.map (fun c => c.current_price)

/-- The sequence of per-tick price vectors produced by n iterations of the
calculation loop, the draws for tick i taken from position i of the injected
draw stream. -/
def engineTrace (log10 : ℚ → ℚ) (draws : ℕ → TickDraws) (s : EngineState) :
    ℕ → List (List ℚ)
  | 0 => []
  | n + 1 =>
      priceList (calculatePricesTick log10 (draws 0) s) ::
        engineTrace log10 (fun i => draws (i + 1))
          (calculatePricesTick log10 (draws 0) s) n

/-- A default character, used only as the fallback of positional lookups. -/
def defaultCharacter : Character := Character.init 0 "" "" 0 0

/-- A stand-in for log10 used by concrete witnesses (hypotheses never
constrain more of it than its value at 1). -/
def l0 : ℚ → ℚ := fun _ => 0

/-- Concrete draws used by witnesses: volatility draw 0, growth draw 1. -/
def dW : Draws := { vol := 0, growth := 1 }

/-- Concrete tick draws used by witnesses: every character gets dW, the event
draw 1 keeps triggerMajorEvent from firing. -/
def td0 : TickDraws := { perChar := fun _ => dW, eventChance := 1 }

/-- The initial state after one tick with concrete draws. -/
def tickedState : EngineState := applyOp (EngineOp.tick l0 td0) initialState

/-- A character with a non-zero price, for concrete witnesses. -/
def chopperPriced : Character :=
  { Character.init 6 "Tony Tony Chopper" "Straw Hat Pirates" 1000 0.06 with
    current_price := 5 }

/-- The first roster character, for concrete witnesses. -/
def luffyChar : Character :=
  Character.init 1 "Monkey D. Luffy" "Straw Hat Pirates" 3000000000 0.15

/-- A state in which the story progression cadence is due. -/
def storyDueState : EngineState :=
  { initialState with market := { MarketData.init with days_elapsed := 100 } }

/-- A cadence-due state already at the last arc. -/
def lastArcState : EngineState :=
  { storyDueState with current_arc_index := story_arcs.length - 1 }

/-- A running state with one outstanding detached deactivation timer and the
major-event flag set. -/
def pendingTimerState : EngineState :=
  { initialState with
    market := { MarketData.init with major_event_active := true }
    pending_deactivations := [10] }

/-- The price-range invariant of §8: every non-zero price lies in
[0.01, 10000]. -/
def PriceInv (s : EngineState) : Prop :=
  ∀ c ∈ s.characters, c.current_price ≠ 0 →
    0.01 ≤ c.current_price ∧ c.current_price ≤ 10000

theorem calculateNewPrice_range (log10 : ℚ → ℚ) (d : Draws) (m : MarketData)
    (c : Character) :
    0.01 ≤ calculateNewPrice log10 d m c ∧
      calculateNewPrice log10 d m c ≤ 10000 := by
  unfold calculateNewPrice
  exact ⟨le_min (le_max_right _ _) (by norm_num), min_le_right _ _⟩

theorem updateChars_price_range (log10 : ℚ → ℚ) (perChar : ℕ → Draws)
    (m : MarketData) (now : ℕ) :
    ∀ (l : List Character) (i : ℕ),
      ∀ c' ∈ updateChars log10 perChar m now i l,
        0.01 ≤ c'.current_price ∧ c'.current_price ≤ 10000 := by
  intro l
  induction l with
  | nil => intro i c' h; simp [updateChars] at h
  | cons a rest ih =>
      intro i c' h
      rw [updateChars] at h
      rcases List.mem_cons.mp h with h | h
      · subst h
        simpa [tickCharacter] using
          calculateNewPrice_range log10 (perChar i) m a
      · exact ih (i + 1) c' h

theorem calculatePricesTick_characters (log10 : ℚ → ℚ) (td : TickDraws)
    (s : EngineState) :
    ∃ m now, (calculatePricesTick log10 td s).characters =
      updateChars log10 td.perChar m now 0 s.characters := by
  refine ⟨{ s.market with
            days_elapsed := s.market.days_elapsed + 1
            current_year := if (s.market.days_elapsed + 1) % 365 = 0
                            then s.market.current_year + 1
                            else s.market.current_year },
          s.market.days_elapsed + 1, ?_⟩
  simp only [calculatePricesTick, triggerMajorEvent]
  split_ifs <;> rfl

theorem progressStoryStep_characters (s : EngineState) :
    (progressStoryStep s).characters = s.characters := by
  simp only [progressStoryStep]
  split_ifs <;> rfl

theorem deactivationTimerFire_characters (s : EngineState) :
    (deactivationTimerFire s).characters = s.characters := by
  cases hp : s.pending_deactivations <;> simp [deactivationTimerFire, hp]

theorem priceInv_applyOp (op : EngineOp) (s : EngineState) (h : PriceInv s) :
    PriceInv (applyOp op s) := by
  cases op with
  | tick log10 td =>
      intro c hc hne
      obtain ⟨m, now, hm⟩ := calculatePricesTick_characters log10 td s
      rw [applyOp] at hc
      rw [hm] at hc
      exact updateChars_price_range log10 td.perChar m now s.characters 0 c hc
  | story =>
      intro c hc hne
      rw [applyOp, progressStoryStep_characters] at hc
      exact h c hc hne
  | deactivate =>
      intro c hc hne
      rw [applyOp, deactivationTimerFire_characters] at hc
      exact h c hc hne
  | stop =>
      intro c hc hne
      exact h c hc hne

theorem priceInv_init : PriceInv initialState := by
  intro c hc hne
  have hz : ∀ c ∈ initialState.characters, c.current_price = 0 := by decide
  exact absurd (hz c hc) hne

theorem reachable_priceInv {s : EngineState} (h : Reachable s) : PriceInv s := by
  induction h with
  | init => exact priceInv_init
  | step op hr ih => exact priceInv_applyOp op _ ih

theorem getD_price_mem (l : List Character) (i : ℕ)
    (h : (l.getD i defaultCharacter).current_price ≠ 0) :
    l.getD i defaultCharacter ∈ l := by
  induction l generalizing i with
  | nil => exact absurd rfl h
  | cons a rest ih =>
      cases i with
      | zero => simp [List.getD]
      | succ j =>
          rw [List.getD_cons_succ] at h ⊢
          exact List.mem_cons_of_mem a (ih j h)

/-- Claim C1: every value calculateNewPrice returns lies in [0.01, 10000],
and in every reachable engine state every character whose price is non-zero
has its price in [0.01, 10000]. -/
theorem price_range_invariant :
    (∀ (log10 : ℚ → ℚ) (d : Draws) (m : MarketData) (c : Character),
        0.01 ≤ calculateNewPrice log10 d m c ∧
          calculateNewPrice log10 d m c ≤ 10000) ∧
    (∀ s : EngineState, Reachable s → ∀ i : ℕ,
        (s.characters.getD i defaultCharacter).current_price ≠ 0 →
        0.01 ≤ (s.characters.getD i defaultCharacter).current_price ∧
          (s.characters.getD i defaultCharacter).current_price ≤ 10000) := by
  constructor
  · exact calculateNewPrice_range
  · intro s hs i hne
    exact reachable_priceInv hs _ (getD_price_mem _ _ hne) hne

/-- Witness for C1 at concrete inputs: the zero character under zero draws,
and the first character of the engine after one concrete tick. -/
theorem price_range_invariant_witness :
    (0.01 ≤ calculateNewPrice l0 dW MarketData.init defaultCharacter ∧
      calculateNewPrice l0 dW MarketData.init defaultCharacter ≤ 10000) ∧
    (0.01 ≤ (tickedState.characters.getD 0 defaultCharacter).current_price ∧
      (tickedState.characters.getD 0 defaultCharacter).current_price ≤ 10000) :=
  ⟨price_range_invariant.1 l0 dW MarketData.init defaultCharacter,
   price_range_invariant.2 tickedState
     (Reachable.step (EngineOp.tick l0 td0) Reachable.init) 0 (by
       norm_num [tickedState, applyOp, calculatePricesTick, updateChars,
         tickCharacter, calculateNewPrice, getStoryMultiplier,
         story_arc_multipliers, initialState, loadCharacters, Character.init,
         MarketData.init, defaultCharacter, triggerMajorEvent, l0, td0, dW])⟩

/-- Claim C2: for a character whose price is non-zero, calculateNewPrice is
exactly the old price times the compound growth factor
1 + growth_rate * arc_multiplier * cold_start_boost (boost 2 below price 10,
else 1), the volatility factor, the reputation factor
1 + log10(bounty + 1) * 0.02 (equal to 1 when the bounty is 0, since
log10 1 = 0), the crew factor and the active-event factor, clamped to
[0.01, 10000]. -/
theorem price_model_formula (log10 : ℚ → ℚ) (d : Draws) (m : MarketData)
    (c : Character) (h0 : c.current_price ≠ 0) (hb : 0 ≤ c.bounty)
    (hlog : log10 1 = 0) :
    calculateNewPrice log10 d m c =
      min (max (c.current_price *
        (1 + c.base_growth_rate * getStoryMultiplier c m.current_arc *
          (if c.current_price < 10 then 2 else 1)) *
        (1 + d.vol * c.volatility) *
        (1 + log10 ((c.bounty : ℚ) + 1) * 0.02) *
        (if c.crew = "Straw Hat Pirates" then 1.2
         else if c.crew = "Beast Pirates" ∨ c.crew = "Big Mom Pirates"
         then 1.15 else 1) *
        (if m.major_event_active then 1.5 else 1)) 0.01) 10000 := by
  have hgrow : (if c.current_price < 10 then c.base_growth_rate * 2
        else c.base_growth_rate) * getStoryMultiplier c m.current_arc
      = c.base_growth_rate * getStoryMultiplier c m.current_arc *
          (if c.current_price < 10 then 2 else 1) := by
    split_ifs <;> ring
  have hbf : (if 0 < c.bounty
        then 1 + log10 ((c.bounty : ℚ) + 1) * 0.02 else 1)
      = 1 + log10 ((c.bounty : ℚ) + 1) * 0.02 := by
    split_ifs with h
    · rfl
    · have hz : c.bounty = 0 := le_antisymm (not_lt.mp h) hb
      rw [hz]
      norm_num [hlog]
  simp only [calculateNewPrice]
  rw [if_neg h0, hgrow, hbf]

/-- Witness for C2: the formula instantiated at a concrete priced character. -/
theorem price_model_formula_witness :
    calculateNewPrice l0 dW MarketData.init chopperPriced =
      min (max (chopperPriced.current_price *
        (1 + chopperPriced.base_growth_rate *
          getStoryMultiplier chopperPriced MarketData.init.current_arc *
          (if chopperPriced.current_price < 10 then 2 else 1)) *
        (1 + dW.vol * chopperPriced.volatility) *
        (1 + l0 ((chopperPriced.bounty : ℚ) + 1) * 0.02) *
        (if chopperPriced.crew = "Straw Hat Pirates" then 1.2
         else if chopperPriced.crew = "Beast Pirates" ∨
             chopperPriced.crew = "Big Mom Pirates"
         then 1.15 else 1) *
        (if MarketData.init.major_event_active then 1.5 else 1)) 0.01) 10000 :=
  price_model_formula l0 dW MarketData.init chopperPriced
    (by norm_num [chopperPriced, Character.init]) (by decide) rfl

/-- Claim C3: the constructor seeds every character at price exactly 0, and
the zero-price branch of calculateNewPrice lands in the bootstrap range
[0.40, 0.75] whenever the injected growth draw lies in its distribution
range [0.8, 1.5]. -/
theorem bootstrap_price :
    (∀ (id : ℕ) (name crew : String) (bounty : ℤ) (growth_rate : ℚ),
        (Character.init id name crew bounty growth_rate).current_price = 0) ∧
    (∀ (log10 : ℚ → ℚ) (d : Draws) (m : MarketData) (c : Character),
        c.current_price = 0 → 0.8 ≤ d.growth → d.growth ≤ 1.5 →
        0.4 ≤ calculateNewPrice log10 d m c ∧
          calculateNewPrice log10 d m c ≤ 0.75) := by
  constructor
  · intro id name crew bounty growth_rate
    rfl
  · intro log10 d m c h0 hg1 hg2
    simp only [calculateNewPrice]
    rw [if_pos h0]
    have h1 : (0.01 : ℚ) ≤ d.growth * 0.5 := by linarith
    have h2 : d.growth * 0.5 ≤ (10000 : ℚ) := by linarith
    rw [max_eq_left h1, min_eq_left h2]
    constructor <;> linarith

/-- Witness for C3: a freshly constructed character and the concrete growth
draw 1. -/
theorem bootstrap_price_witness :
    (Character.init 1 "A" "B" 0 0.1).current_price = 0 ∧
    (0.4 ≤ calculateNewPrice l0 dW MarketData.init
        (Character.init 1 "A" "B" 0 0.1) ∧
      calculateNewPrice l0 dW MarketData.init
        (Character.init 1 "A" "B" 0 0.1) ≤ 0.75) :=
  ⟨bootstrap_price.1 1 "A" "B" 0 0.1,
   bootstrap_price.2 l0 dW MarketData.init (Character.init 1 "A" "B" 0 0.1)
     rfl (by norm_num [dW]) (by norm_num [dW])⟩

/-- Claim C4: the recorded percentage change after one per-character update
equals (new - old) / old * 100 when the old price is positive, 100 when the
old price is not positive and the new price is, and 0 otherwise. -/
theorem percentage_change_law (log10 : ℚ → ℚ) (d : Draws) (m : MarketData)
    (now : ℕ) (c : Character) :
    (tickCharacter log10 d m now c).weekly_change =
      if 0 < c.current_price then
        ((tickCharacter log10 d m now c).current_price - c.current_price) /
          c.current_price * 100
      else if 0 < (tickCharacter log10 d m now c).current_price then 100
      else 0 := rfl

/-- Counterexample to C5 as stated: at a concrete state whose cadence is due,
the story progression step sets the active-event flag but creates no timed
deactivation task — the pending set stays empty, so nothing is scheduled to
clear the flag after a fixed duration; even a deactivation-timer step leaves
the flag set because no timer is outstanding. -/
theorem story_event_no_deactivation_cex :
    (progressStoryStep storyDueState).market.major_event_active = true ∧
    (progressStoryStep storyDueState).pending_deactivations = [] ∧
    (deactivationTimerFire
        (progressStoryStep storyDueState)).market.major_event_active = true := by
  decide

/-- Claim C5 (amended): on the cadence (elapsed days positive and divisible
by 100), if the index is not at the last position the sequencer advances it
by exactly one, installs the arc name at the new index, and sets the
active-event flag without scheduling any deactivation; once at the last arc,
the step changes nothing. -/
theorem story_progression_step (s : EngineState)
    (h1 : 0 < s.market.days_elapsed) (h2 : s.market.days_elapsed % 100 = 0) :
    (s.current_arc_index < story_arcs.length - 1 →
      (progressStoryStep s).current_arc_index = s.current_arc_index + 1 ∧
      (progressStoryStep s).market.current_arc =
        story_arcs.getD (s.current_arc_index + 1) "" ∧
      (progressStoryStep s).market.major_event_active = true ∧
      (progressStoryStep s).pending_deactivations =
        s.pending_deactivations) ∧
    (s.current_arc_index = story_arcs.length - 1 →
      progressStoryStep s = s) := by
  constructor
  · intro hlt
    unfold progressStoryStep
    rw [if_pos (And.intro h1 h2), if_pos hlt]
    exact ⟨rfl, rfl, rfl, rfl⟩
  · intro heq
    unfold progressStoryStep
    rw [if_pos (And.intro h1 h2),
        if_neg (by intro hcon; rw [heq] at hcon; exact lt_irrefl _ hcon)]

/-- Witness for C5 (amended): the concrete cadence-due state at arc index 0,
and the concrete cadence-due state already at the last arc. -/
theorem story_progression_step_witness :
    ((progressStoryStep storyDueState).current_arc_index =
        storyDueState.current_arc_index + 1 ∧
      (progressStoryStep storyDueState).market.current_arc =
        story_arcs.getD (storyDueState.current_arc_index + 1) "" ∧
      (progressStoryStep storyDueState).market.major_event_active = true ∧
      (progressStoryStep storyDueState).pending_deactivations =
        storyDueState.pending_deactivations) ∧
    progressStoryStep lastArcState = lastArcState :=
  ⟨(story_progression_step storyDueState (by decide) (by decide)).1 (by decide),
   (story_progression_step lastArcState (by decide) (by decide)).2 (by decide)⟩

theorem calculatePricesTick_arc_index (log10 : ℚ → ℚ) (td : TickDraws)
    (s : EngineState) :
    (calculatePricesTick log10 td s).current_arc_index =
      s.current_arc_index := by
  simp only [calculatePricesTick, triggerMajorEvent]
  split_ifs <;> rfl

theorem deactivationTimerFire_arc_index (s : EngineState) :
    (deactivationTimerFire s).current_arc_index = s.current_arc_index := by
  cases hp : s.pending_deactivations <;> simp [deactivationTimerFire, hp]

theorem progressStoryStep_arc_index_le (s : EngineState) :
    s.current_arc_index ≤ (progressStoryStep s).current_arc_index := by
  unfold progressStoryStep
  split_ifs <;> first | exact Nat.le_succ _ | exact le_refl _

theorem progressStoryStep_arc_index_bound (s : EngineState)
    (h : s.current_arc_index ≤ story_arcs.length - 1) :
    (progressStoryStep s).current_arc_index ≤ story_arcs.length - 1 := by
  unfold progressStoryStep
  split_ifs with hc hlt
  · exact hlt
  · exact h
  · exact h

/-- Claim C6: the arc index never decreases under any modelled operation, and
in every reachable state it is bounded by the last position of the arc
table. -/
theorem arc_index_monotone :
    (∀ (op : EngineOp) (s : EngineState),
        s.current_arc_index ≤ (applyOp op s).current_arc_index) ∧
    (∀ s : EngineState, Reachable s →
        s.current_arc_index ≤ story_arcs.length - 1) := by
  constructor
  · intro op s
    cases op with
    | tick log10 td => rw [applyOp, calculatePricesTick_arc_index]
    | story => exact progressStoryStep_arc_index_le s
    | deactivate => rw [applyOp, deactivationTimerFire_arc_index]
    | stop => exact le_refl _
  · intro s hs
    induction hs with
    | init => decide
    | step op hr ih =>
        cases op with
        | tick log10 td =>
            rw [applyOp, calculatePricesTick_arc_index]
            exact ih
        | story => exact progressStoryStep_arc_index_bound _ ih
        | deactivate =>
            rw [applyOp, deactivationTimerFire_arc_index]
            exact ih
        | stop => exact ih

/-- Witness for C6: the story step from the initial state, which is
reachable. -/
theorem arc_index_monotone_witness :
    initialState.current_arc_index ≤
        (applyOp EngineOp.story initialState).current_arc_index ∧
      initialState.current_arc_index ≤ story_arcs.length - 1 :=
  ⟨arc_index_monotone.1 EngineOp.story initialState,
   arc_index_monotone.2 initialState Reachable.init⟩

/-- Claim C7: the arc multiplier equals the base table value for the current
arc, except for exactly the three hardcoded (character name, arc) override
pairs, each multiplying the base; every other pair gets the base value
unchanged. -/
theorem story_multiplier_overrides (c : Character) (arc : String) :
    ((c.name, arc) = ("Monkey D. Luffy", "Summit War Saga") →
      getStoryMultiplier c arc = story_arc_multipliers arc * 2) ∧
    ((c.name, arc) = ("Monkey D. Luffy", "Wano Country Saga") →
      getStoryMultiplier c arc = story_arc_multipliers arc * 3) ∧
    ((c.name, arc) = ("Kaido", "Wano Country Saga") →
      getStoryMultiplier c arc = story_arc_multipliers arc * 2.5) ∧
    ((c.name, arc) ∉
        ([("Monkey D. Luffy", "Summit War Saga"),
          ("Monkey D. Luffy", "Wano Country Saga"),
          ("Kaido", "Wano Country Saga")] : List (String × String)) →
      getStoryMultiplier c arc = story_arc_multipliers arc) := by
  refine ⟨?_, ?_, ?_, ?_⟩
  · intro h
    rw [Prod.mk.injEq] at h
    obtain ⟨hn, ha⟩ := h
    subst ha
    simp [getStoryMultiplier, hn]
  · intro h
    rw [Prod.mk.injEq] at h
    obtain ⟨hn, ha⟩ := h
    subst ha
    simp [getStoryMultiplier, hn]
  · intro h
    rw [Prod.mk.injEq] at h
    obtain ⟨hn, ha⟩ := h
    subst ha
    simp [getStoryMultiplier, hn]
  · intro h
    simp only [List.mem_cons, List.not_mem_nil, or_false, not_or] at h
    obtain ⟨h1, h2, h3⟩ := h
    simp only [getStoryMultiplier]
    split_ifs with hc1 hc2 hc3
    · exact absurd (by rw [hc1.2, hc1.1]) h1
    · exact absurd (by rw [hc2.2, hc2.1]) h2
    · exact absurd (by rw [hc3.2, hc3.1]) h3
    · rfl

/-- Witness for C7: Luffy in the Summit War arc hits an override; Luffy in
the East Blue arc gets the plain base value. -/
theorem story_multiplier_overrides_witness :
    getStoryMultiplier luffyChar "Summit War Saga" =
        story_arc_multipliers "Summit War Saga" * 2 ∧
      getStoryMultiplier luffyChar "East Blue Saga" =
        story_arc_multipliers "East Blue Saga" :=
  ⟨(story_multiplier_overrides luffyChar "Summit War Saga").1 rfl,
   (story_multiplier_overrides luffyChar "East Blue Saga").2.2.2 (by decide)⟩

/-- Claim C8: the engine is deterministic — the trace of per-tick price
vectors is a function of the injected draw stream and the initial state
alone, so two runs fed equal draws from equal states produce identical
price sequences. -/
theorem run_deterministic (log10 : ℚ → ℚ) (d1 d2 : ℕ → TickDraws)
    (s1 s2 : EngineState) (n : ℕ) (hd : ∀ i, d1 i = d2 i) (hs : s1 = s2) :
    engineTrace log10 d1 s1 n = engineTrace log10 d2 s2 n := by
  subst hs
  induction n generalizing d1 d2 s1 with
  | zero => rfl
  | succ n ih =>
      have h0 : d1 0 = d2 0 := hd 0
      simp only [engineTrace, h0, List.cons.injEq, true_and]
      exact ih (fun i => d1 (i + 1)) (fun i => d2 (i + 1))
        (calculatePricesTick log10 (d2 0) s1) (fun i => hd (i + 1))

/-- Witness for C8: two textually identical runs of one tick from the
initial state. -/
theorem run_deterministic_witness :
    engineTrace l0 (fun _ => td0) initialState 1 =
      engineTrace l0 (fun _ => td0) initialState 1 :=
  run_deterministic l0 (fun _ => td0) (fun _ => td0) initialState initialState
    1 (fun _ => rfl) rfl

/-- Claim C9 names a behavior the source does not have: shutdown joins only
the two periodic threads, while the deactivation timers spawned by
triggerMajorEvent are detached and untracked.  At a concrete running state
with one outstanding deactivation timer, stopPriceCalculation clears the
running flag but leaves the timer outstanding and the flag set, and the
detached timer still fires — mutating the shared context — after shutdown. -/
theorem shutdown_detached_timer_bug :
    (stopPriceCalculation pendingTimerState).running = false ∧
    (stopPriceCalculation pendingTimerState).pending_deactivations = [10] ∧
    (stopPriceCalculation
        pendingTimerState).market.major_event_active = true ∧
    (deactivationTimerFire (stopPriceCalculation
        pendingTimerState)).market.major_event_active = false := by
  decide

theorem updateChars_length (log10 : ℚ → ℚ) (perChar : ℕ → Draws)
    (m : MarketData) (now : ℕ) :
    ∀ (l : List Character) (i : ℕ),
      (updateChars log10 perChar m now i l).length = l.length := by
  intro l
  induction l with
  | nil => intro i; rfl
  | cons a rest ih => intro i; simp [updateChars, ih]

theorem updateChars_frame (log10 : ℚ → ℚ) (perChar : ℕ → Draws)
    (m : MarketData) (now : ℕ) :
    ∀ (l : List Character) (i j : ℕ),
      ((updateChars log10 perChar m now i l).getD j defaultCharacter).id =
          (l.getD j defaultCharacter).id ∧
        ((updateChars log10 perChar m now i l).getD j defaultCharacter).name =
          (l.getD j defaultCharacter).name ∧
        ((updateChars log10 perChar m now i l).getD j defaultCharacter).crew =
          (l.getD j defaultCharacter).crew ∧
        ((updateChars log10 perChar m now i l).getD j
            defaultCharacter).bounty = (l.getD j defaultCharacter).bounty ∧
        ((updateChars log10 perChar m now i l).getD j
            defaultCharacter).base_growth_rate =
          (l.getD j defaultCharacter).base_growth_rate ∧
        ((updateChars log10 perChar m now i l).getD j
            defaultCharacter).volatility =
          (l.getD j defaultCharacter).volatility ∧
        ((updateChars log10 perChar m now i l).getD j
            defaultCharacter).story_multiplier =
          (l.getD j defaultCharacter).story_multiplier ∧
        ((updateChars log10 perChar m now i l).getD j
            defaultCharacter).sentiment_score =
          (l.getD j defaultCharacter).sentiment_score ∧
        ((updateChars log10 perChar m now i l).getD j
            defaultCharacter).story_phase =
          (l.getD j defaultCharacter).story_phase ∧
        ((updateChars log10 perChar m now i l).getD j
            defaultCharacter).is_trending =
          (l.getD j defaultCharacter).is_trending := by
  intro l
  induction l with
  | nil =>
      intro i j
      exact ⟨rfl, rfl, rfl, rfl, rfl, rfl, rfl, rfl, rfl, rfl⟩
  | cons a rest ih =>
      intro i j
      cases j with
      | zero => exact ⟨rfl, rfl, rfl, rfl, rfl, rfl, rfl, rfl, rfl, rfl⟩
      | succ k =>
          simp only [updateChars, List.getD_cons_succ]
          exact ih (i + 1) k

/-- Claim C10: one tick of the update loop preserves the number of
characters and, position by position, every field except the current price,
the recorded change and the update timestamp: identifier, name, crew,
bounty, growth rate, volatility, story fields and trending flag are
unchanged.  (The price model itself is read-only on the character: in the
embedding calculateNewPrice returns only the new price.) -/
theorem tick_frame (log10 : ℚ → ℚ) (td : TickDraws) (s : EngineState) :
    (calculatePricesTick log10 td s).characters.length =
        s.characters.length ∧
    ∀ j : ℕ,
      ((calculatePricesTick log10 td s).characters.getD j
            defaultCharacter).id = (s.characters.getD j defaultCharacter).id ∧
        ((calculatePricesTick log10 td s).characters.getD j
            defaultCharacter).name =
          (s.characters.getD j defaultCharacter).name ∧
        ((calculatePricesTick log10 td s).characters.getD j
            defaultCharacter).crew =
          (s.characters.getD j defaultCharacter).crew ∧
        ((calculatePricesTick log10 td s).characters.getD j
            defaultCharacter).bounty =
          (s.characters.getD j defaultCharacter).bounty ∧
        ((calculatePricesTick log10 td s).characters.getD j
            defaultCharacter).base_growth_rate =
          (s.characters.getD j defaultCharacter).base_growth_rate ∧
        ((calculatePricesTick log10 td s).characters.getD j
            defaultCharacter).volatility =
          (s.characters.getD j defaultCharacter).volatility ∧
        ((calculatePricesTick log10 td s).characters.getD j
            defaultCharacter).story_multiplier =
          (s.characters.getD j defaultCharacter).story_multiplier ∧
        ((calculatePricesTick log10 td s).characters.getD j
            defaultCharacter).sentiment_score =
          (s.characters.getD j defaultCharacter).sentiment_score ∧
        ((calculatePricesTick log10 td s).characters.getD j
            defaultCharacter).story_phase =
          (s.characters.getD j defaultCharacter).story_phase ∧
        ((calculatePricesTick log10 td s).characters.getD j
            defaultCharacter).is_trending =
          (s.characters.getD j defaultCharacter).is_trending := by
  obtain ⟨m, now, hm⟩ := calculatePricesTick_characters log10 td s
  rw [hm]
  exact ⟨updateChars_length log10 td.perChar m now s.characters 0,
    fun j => updateChars_frame log10 td.perChar m now s.characters 0 j⟩
